import Mathlib

/-!
Verification of the mesacat evacuation model (src/mesacat/model.py).

The development shallowly embeds `EvacuationModel` and its operations.
Pure geometric and library behaviour used by the source is modelled as
follows, each faithful to the documented semantics of the library call:

* geopandas `sjoin(left, right)` (default inner join on the boundary
  inclusive intersects predicate) produces one output row per
  intersecting (left geometry, right geometry) pair, in left-major
  order; only the left geometry of each row is used downstream.
* hazard polygons are modelled as closed axis-aligned boxes, giving an
  executable boundary-inclusive point/polygon intersects predicate.
* scipy `cKDTree.query` returns the index of the nearest point by
  Euclidean distance, first index on ties; squared distances avoid
  floating point.
* Python's seeded `random.Random` (mesa seeds it from the model seed)
  is modelled as a deterministic linear congruential generator; only
  determinism and seed-dependence of the stream matter here.
* mesa `RandomActivation.step` draws a fresh permutation of the agent
  order from the model's random source (Fisher-Yates, as
  `random.shuffle`), activates every agent once in that order and then
  increments the step counter.
* mesa `DataCollector.collect` appends the model reporter value and one
  row per agent of the agent reporter, keyed by the current step count;
  the model reporter of the source evaluates
  `len(G.nodes[target_node]["agent"])`, which raises `KeyError` when the
  target is not a node of the graph; node occupancy is kept in sync with
  agent positions by the grid, so the count equals the number of agents
  whose position is the target node.

The module `mesacat.agent` (the route collaborator) is not under src;
where its behaviour decides a claim it is modelled from the spec, marked
by doc comments starting with "Modelled from the spec:".
-/

/-- A 2D point with integer coordinates (geometry of a candidate
location or a network node). -/
structure Point where
  x : Int
  y : Int
deriving DecidableEq

/-- A hazard polygon, modelled as a closed axis-aligned box: an
executable stand-in for a shapely polygon with the boundary-inclusive
intersects predicate used by geopandas sjoin. -/
structure Polygon where
  lox : Int
  hix : Int
  loy : Int
  hiy : Int
deriving DecidableEq

/-- Boundary-inclusive point-in-polygon test (the geometric predicate of
the spatial join). -/
def Polygon.intersectsPoint (g : Polygon) (p : Point) : Bool :=
  g.lox ≤ p.x && p.x ≤ g.hix && g.loy ≤ p.y && p.y ≤ g.hiy

/-- A GeoDataFrame of point geometries (agent starting locations):
a coordinate reference system label and the geometry column. -/
structure PointGDF where
  crs : Option String
  geoms : List Point
deriving DecidableEq

/-- A GeoDataFrame of polygon geometries (the flood hazard zones). -/
structure PolyGDF where
  crs : Option String
  geoms : List Polygon
deriving DecidableEq

/-- The nodes GeoDataFrame of the OSM graph: CRS, node index (ids) and
node point geometries, as produced by osmnx graph_to_gdfs. -/
structure NodesGDF where
  crs : Option String
  ids : List Int
  pts : List Point
deriving DecidableEq

/-- geopandas sjoin(left, right): default inner join on intersects.
One output row per intersecting (left, right) pair, left-major order;
the geometry kept in each row is the left one, which is all the source
uses of the result. -/
def sjoin (left : PointGDF) (right : PolyGDF) : List Point :=
  left.geoms.flatMap
    (fun p => (right.geoms.filter (fun g => g.intersectsPoint p)).map (fun _ => p))

/-- Squared Euclidean distance (the cKDTree metric, squared to stay in
integers). -/
def sqDist (a b : Point) : Int :=
  (a.x - b.x) * (a.x - b.x) + (a.y - b.y) * (a.y - b.y)

/-- Fold of the nearest-neighbour scan: current index, best index so
far, best squared distance so far.  Strict improvement keeps the first
index on ties. -/
def nearestIdxAux (q : Point) : List Point → Nat → Nat → Int → Nat
  | [], _, best, _ => best
  | p :: rest, i, best, bd =>
    if sqDist p q < bd then nearestIdxAux q rest (i + 1) i (sqDist p q)
    else nearestIdxAux q rest (i + 1) best bd

/-- cKDTree.query: index of the node nearest to the query point, ties
broken by index order. -/
def nearestIdx (pts : List Point) (q : Point) : Nat :=
  match pts with
  | [] => 0
  | p :: rest => nearestIdxAux q rest 1 0 (sqDist p q)

/-- Deterministic random generator state, modelling Python's seeded
random.Random stream. -/
structure RNG where
  state : Nat
deriving DecidableEq

/-- One step of the linear congruential generator. -/
def lcg (s : Nat) : Nat := (1103515245 * s + 12345) % 2147483648

/-- Draw a number below the bound and the successor state. -/
def RNG.next (r : RNG) (bound : Nat) : Nat × RNG :=
  let s := lcg r.state
  (if bound = 0 then 0 else s % bound, RNG.mk s)

/-- Swap two positions of a list (a step of Fisher-Yates). -/
def listSwap (l : List Nat) (i j : Nat) : List Nat :=
  match l.get? i, l.get? j with
  | some a, some b => (l.set i b).set j a
  | _, _ => l

/-- Fisher-Yates main loop, i descending, as in random.shuffle. -/
def fisherYatesAux : List Nat → RNG → Nat → List Nat × RNG
  | l, rng, 0 => (l, rng)
  | l, rng, Nat.succ i =>
    let jr := rng.next (i + 2)
    fisherYatesAux (listSwap l (i + 1) jr.1) jr.2 i

/-- random.shuffle of a list, driven by the model's random source. -/
def shuffle (rng : RNG) (l : List Nat) : List Nat × RNG :=
  match l.length with
  | 0 => (l, rng)
  | Nat.succ n => fisherYatesAux l rng n

/-- An EvacuationAgent as the engine sees it: its unique id and its
current network node (`pos`).  The navigation state of the route
collaborator is abstracted into the model's advance function. -/
structure Agent where
  uid : Nat
  pos : Int
deriving DecidableEq

/-- One agent row of the data collector: Step and AgentID of the
MultiIndex plus the recorded position reporter value. -/
structure CollectedRow where
  step : Nat
  agentId : Nat
  position : Int
deriving DecidableEq

/-- The EvacuationModel state: the dataframes stored on self (hazard and
agent_locations aliasing the caller's objects), the node frame of the
graph, the target node, the scheduler (agent list in insertion order and
step counter), the random source, the data collector logs, and the
spec-modelled advance function of the route collaborator. -/
structure EvacuationModel where
  hazard : PolyGDF
  agent_locations : PointGDF
  nodes : NodesGDF
  target_node : Int
  agents : List Agent
  steps : Nat
  rng : RNG
  modelLog : List (Nat × Nat)
  agentLog : List CollectedRow
  /-- Modelled from the spec: the route collaborator of mesacat.agent
  (not under src).  Section 4.4: one activation advances the agent by
  one discrete unit, updating its pos; the decision depends on the
  agent's own state, abstracted as a function of its current node. -/
  advance : Int → Int

/-- The agent reporter rows produced by one DataCollector.collect call:
one row per scheduled agent, in insertion order, keyed by the current
step count. -/
def snapshotRows (m : EvacuationModel) : List CollectedRow :=
  m.agents.map (fun a => { step := m.steps, agentId := a.uid, position := a.pos })

/-- The model reporter value: the number of agents occupying the target
node (grid occupancy stays in sync with agent positions). -/
def evacuatedCount (m : EvacuationModel) : Nat :=
  (m.agents.filter (fun a => a.pos == m.target_node)).length

/-- DataCollector.collect: evaluate the model reporter and the agent
reporter and append the results.  The model reporter indexes
G.nodes[target_node], raising KeyError when the target is not a node of
the graph. -/
def collect (m : EvacuationModel) : Except String EvacuationModel :=
  if m.target_node ∈ m.nodes.ids then
    .ok { m with
      modelLog := m.modelLog ++ [(m.steps, evacuatedCount m)],
      agentLog := m.agentLog ++ snapshotRows m }
  else
    .error "KeyError: target_node not in graph"

/-- Activate the agent stored at one position of the scheduler's agent
list: apply the advance function to its pos. -/
def updatePos (advance : Int → Int) : List Agent → Nat → List Agent
  | [], _ => []
  | a :: rest, 0 => { a with pos := advance a.pos } :: rest
  | a :: rest, Nat.succ i => a :: updatePos advance rest i

/-- Activate every agent once, in the given order of positions. -/
def activateAll (advance : Int → Int) : List Agent → List Nat → List Agent
  | agents, [] => agents
  | agents, i :: rest => activateAll advance (updatePos advance agents i) rest

/-- RandomActivation.step: draw a fresh random permutation of the agent
order from the model's random source, activate every agent once in that
order, then increment the step counter. -/
def scheduleStep (m : EvacuationModel) : EvacuationModel :=
  let pr := shuffle m.rng (List.range m.agents.length)
  { m with
    agents := activateAll m.advance m.agents pr.1,
    steps := m.steps + 1,
    rng := pr.2 }

/-- EvacuationModel.step: store the current state in the data collector,
then advance the schedule by one step. -/
def EvacuationModel.step (m : EvacuationModel) : Except String EvacuationModel :=
  match collect m with
  | .error e => .error e
  | .ok m1 => .ok (scheduleStep m1)

/-- The loop body of EvacuationModel.run: call step() the given number
of times sequentially. -/
def runSteps : EvacuationModel → Nat → Except String EvacuationModel
  | m, 0 => .ok m
  | m, Nat.succ n =>
    match m.step with
    | .error e => .error e
    | .ok m1 => runSteps m1 n

/-- EvacuationModel.run: step the model the given number of times, then
return the data collector's agent vars dataframe (together with the
mutated model, made explicit by the embedding). -/
def EvacuationModel.run (m : EvacuationModel) (steps : Nat) :
    Except String (EvacuationModel × List CollectedRow) :=
  match runSteps m steps with
  | .error e => .error e
  | .ok m1 => .ok (m1, m1.agentLog)

/-- The construction inputs of EvacuationModel.__init__, with the OSM
file already parsed into its node frame (parsing is the external osmnx
call) and the route collaborator's advance function made explicit. -/
structure Inputs where
  nodes : NodesGDF
  hazard : PolyGDF
  agent_locations : PointGDF
  target_node : Option Int
  seed : Nat
  advance : Int → Int

/-- Target selection of __init__: the supplied node if any, otherwise
random.choice over the node index (IndexError on an empty index). -/
def chooseTarget (tn : Option Int) (nodes : NodesGDF) (rng : RNG) :
    Except String (Int × RNG) :=
  match tn with
  | some t => .ok (t, rng)
  | none =>
    if nodes.ids.length = 0 then .error "IndexError: empty node index"
    else
      let jr := rng.next nodes.ids.length
      .ok (nodes.ids.getD jr.1 0, jr.2)

/-- EvacuationModel.__init__.  In source order: store the hazard and
agent_locations frames (aliases of the caller's objects), overwrite both
CRS labels with the node frame's CRS without reprojecting (the source
comment: prevents a warning about the CRS not being the same), run the
spatial join of agent_locations against hazard, query the node tree for
the nearest node of every joined row, choose the target, then create one
agent per joined row, placing it on its nearest node and computing its
initial route.

Modelled from the spec: the initial route computation of each created
agent (mesacat.agent is not under src) computes a path from the agent to
the target, which fails when the target is not a node of the Network
Graph (spec section 4.3 makes placement and initial route computation
one atomic step of construction); so construction fails exactly when at
least one agent is created and the target is not a graph node.  Path
existence between two valid nodes is the collaborator's open question
(spec section 9) and is not modelled. -/
def mkModel (inp : Inputs) : Except String EvacuationModel :=
  let nodes := inp.nodes
  let hazard : PolyGDF := { inp.hazard with crs := nodes.crs }
  let agent_locations : PointGDF := { inp.agent_locations with crs := nodes.crs }
  let joined : List Point := sjoin agent_locations hazard
  let node_idx : List Nat := joined.map (fun p => nearestIdx nodes.pts p)
  match chooseTarget inp.target_node nodes (RNG.mk inp.seed) with
  | .error e => .error e
  | .ok tr =>
    if node_idx.length ≠ 0 ∧ tr.1 ∉ nodes.ids then
      .error "NodeNotFound: target not in graph"
    else
      .ok {
        hazard := hazard,
        agent_locations := agent_locations,
        nodes := nodes,
        target_node := tr.1,
        agents := node_idx.enum.map
          (fun p => { uid := p.1, pos := nodes.ids.getD p.2 0 }),
        steps := 0,
        rng := tr.2,
        modelLog := [],
        agentLog := [],
        advance := inp.advance }

/-- The number of candidate locations whose geometry intersects at least
one hazard polygon (the count named by the spec). -/
def candidatesInHazardCount (inp : Inputs) : Nat :=
  (inp.agent_locations.geoms.filter
    (fun p => inp.hazard.geoms.any (fun g => g.intersectsPoint p))).length

/-- The number of intersecting (candidate, hazard polygon) pairs: the
row count of the inner spatial join. -/
def intersectingPairCount (inp : Inputs) : Nat :=
  (inp.agent_locations.geoms.map
    (fun p => (inp.hazard.geoms.filter (fun g => g.intersectsPoint p)).length)).sum

/-- The size of the candidate set after the hazard filter as the source
computes it: the row count of the spatial join of the relabelled
frames. -/
def filteredCount (inp : Inputs) : Nat :=
  (sjoin { inp.agent_locations with crs := inp.nodes.crs }
         { inp.hazard with crs := inp.nodes.crs }).length

/-- Boolean success observer on construction results. -/
def isOkE {α : Type} (e : Except String α) : Bool :=
  match e with
  | .ok _ => true
  | .error _ => false

/-- Pure state evolution by schedule steps only (collection appends to
the logs and changes nothing else, so this is the agent/step/rng part of
the model after the given number of steps). -/
def stepsOnly (m : EvacuationModel) : Nat → EvacuationModel
  | 0 => m
  | Nat.succ n => scheduleStep (stepsOnly m n)

/-- The agent rows collected over the given number of steps, in
collection order: one snapshot per step, taken before that step's
activations. -/
def collectedAgentRows (m : EvacuationModel) : Nat → List CollectedRow
  | 0 => []
  | Nat.succ n => collectedAgentRows m n ++ snapshotRows (stepsOnly m n)

/-- The model rows collected over the given number of steps. -/
def collectedModelRows (m : EvacuationModel) : Nat → List (Nat × Nat)
  | 0 => []
  | Nat.succ n =>
    collectedModelRows m n ++
      [((stepsOnly m n).steps, evacuatedCount (stepsOnly m n))]

/-- Extract the model of a successful construction, with a fallback for
the error case. -/
def getOk (e : Except String EvacuationModel) (d : EvacuationModel) : EvacuationModel :=
  match e with
  | .ok m => m
  | .error _ => d

/-- A throwaway model used as the fallback of getOk. -/
def defaultModel : EvacuationModel :=
  { hazard := { crs := none, geoms := [] },
    agent_locations := { crs := none, geoms := [] },
    nodes := { crs := none, ids := [], pts := [] },
    target_node := 0,
    agents := [],
    steps := 0,
    rng := RNG.mk 0,
    modelLog := [],
    agentLog := [],
    advance := fun x => x }

theorem scheduleStep_logs (m : EvacuationModel) (ml : List (Nat × Nat)) (al : List CollectedRow) :
    scheduleStep { m with modelLog := ml, agentLog := al } =
      { scheduleStep m with modelLog := ml, agentLog := al } := rfl

theorem snapshotRows_logs (m : EvacuationModel) (ml : List (Nat × Nat)) (al : List CollectedRow) :
    snapshotRows { m with modelLog := ml, agentLog := al } = snapshotRows m := rfl

theorem evacuatedCount_logs (m : EvacuationModel) (ml : List (Nat × Nat)) (al : List CollectedRow) :
    evacuatedCount { m with modelLog := ml, agentLog := al } = evacuatedCount m := rfl

theorem stepsOnly_logs (m : EvacuationModel) (ml : List (Nat × Nat)) (al : List CollectedRow) :
    ∀ n, stepsOnly { m with modelLog := ml, agentLog := al } n =
      { stepsOnly m n with modelLog := ml, agentLog := al }
  | 0 => rfl
  | Nat.succ n => by
    rw [stepsOnly, stepsOnly, stepsOnly_logs m ml al n, scheduleStep_logs]

theorem stepsOnly_succ_shift (m : EvacuationModel) :
    ∀ n, stepsOnly m (n + 1) = stepsOnly (scheduleStep m) n
  | 0 => rfl
  | Nat.succ n => by
    rw [stepsOnly, stepsOnly_succ_shift m n]
    rfl

theorem collectedAgentRows_logs (m : EvacuationModel) (ml : List (Nat × Nat)) (al : List CollectedRow) :
    ∀ n, collectedAgentRows { m with modelLog := ml, agentLog := al } n = collectedAgentRows m n
  | 0 => rfl
  | Nat.succ n => by
    rw [collectedAgentRows, collectedAgentRows, collectedAgentRows_logs m ml al n,
      stepsOnly_logs, snapshotRows_logs]

theorem collectedModelRows_logs (m : EvacuationModel) (ml : List (Nat × Nat)) (al : List CollectedRow) :
    ∀ n, collectedModelRows { m with modelLog := ml, agentLog := al } n = collectedModelRows m n
  | 0 => rfl
  | Nat.succ n => by
    rw [collectedModelRows, collectedModelRows, collectedModelRows_logs m ml al n,
      stepsOnly_logs, evacuatedCount_logs]

theorem collectedAgentRows_shift (m : EvacuationModel) :
    ∀ n, collectedAgentRows m (n + 1) =
      snapshotRows m ++ collectedAgentRows (scheduleStep m) n
  | 0 => by simp [collectedAgentRows, stepsOnly]
  | Nat.succ n => by
    rw [collectedAgentRows, collectedAgentRows_shift m n, collectedAgentRows,
      stepsOnly_succ_shift, List.append_assoc]

theorem collectedModelRows_shift (m : EvacuationModel) :
    ∀ n, collectedModelRows m (n + 1) =
      (m.steps, evacuatedCount m) :: collectedModelRows (scheduleStep m) n
  | 0 => by simp [collectedModelRows, stepsOnly]
  | Nat.succ n => by
    rw [collectedModelRows, collectedModelRows_shift m n, collectedModelRows,
      stepsOnly_succ_shift]
    simp

theorem runSteps_ok_inv :
    ∀ (n : Nat) (m mt : EvacuationModel), runSteps m n = .ok mt →
      mt = { stepsOnly m n with
             modelLog := m.modelLog ++ collectedModelRows m n,
             agentLog := m.agentLog ++ collectedAgentRows m n } := by
  intro n
  induction n with
  | zero =>
    intro m mt h
    simp only [runSteps, Except.ok.injEq] at h
    subst h
    simp [stepsOnly, collectedAgentRows, collectedModelRows]
  | succ n ih =>
    intro m mt h
    simp only [runSteps] at h
    by_cases hv : m.target_node ∈ m.nodes.ids
    · simp only [EvacuationModel.step, collect, if_pos hv] at h
      have hmt := ih _ _ h
      rw [scheduleStep_logs] at hmt
      rw [hmt, stepsOnly_logs, collectedAgentRows_logs, collectedModelRows_logs,
        stepsOnly_succ_shift, collectedAgentRows_shift, collectedModelRows_shift]
      simp
    · simp [EvacuationModel.step, collect, if_neg hv] at h

theorem updatePos_map_uid (advance : Int → Int) :
    ∀ (l : List Agent) (i : Nat),
      (updatePos advance l i).map (fun a => a.uid) = l.map (fun a => a.uid)
  | [], _ => rfl
  | _ :: _, 0 => rfl
  | a :: rest, Nat.succ i => by
    simp [updatePos, updatePos_map_uid advance rest i]

theorem activateAll_map_uid (advance : Int → Int) :
    ∀ (perm : List Nat) (l : List Agent),
      (activateAll advance l perm).map (fun a => a.uid) = l.map (fun a => a.uid)
  | [], _ => rfl
  | i :: rest, l => by
    rw [activateAll, activateAll_map_uid advance rest, updatePos_map_uid]

theorem scheduleStep_map_uid (m : EvacuationModel) :
    (scheduleStep m).agents.map (fun a => a.uid) = m.agents.map (fun a => a.uid) := by
  simp [scheduleStep, activateAll_map_uid]

theorem stepsOnly_map_uid (m : EvacuationModel) :
    ∀ n, (stepsOnly m n).agents.map (fun a => a.uid) = m.agents.map (fun a => a.uid)
  | 0 => rfl
  | Nat.succ n => by
    rw [stepsOnly, scheduleStep_map_uid, stepsOnly_map_uid m n]

theorem stepsOnly_agents_length (m : EvacuationModel) (n : Nat) :
    (stepsOnly m n).agents.length = m.agents.length := by
  have h := congrArg List.length (stepsOnly_map_uid m n)
  simpa using h

theorem stepsOnly_steps (m : EvacuationModel) :
    ∀ n, (stepsOnly m n).steps = m.steps + n
  | 0 => rfl
  | Nat.succ n => by
    rw [stepsOnly]
    show (stepsOnly m n).steps + 1 = m.steps + (n + 1)
    rw [stepsOnly_steps m n, Nat.add_assoc]

theorem mkModel_ok_inv (inp : Inputs) (m : EvacuationModel) (h : mkModel inp = .ok m) :
    m.steps = 0 ∧ m.agentLog = [] ∧ m.modelLog = [] ∧
    m.nodes = inp.nodes ∧
    m.hazard = { inp.hazard with crs := inp.nodes.crs } ∧
    m.agent_locations = { inp.agent_locations with crs := inp.nodes.crs } ∧
    m.agents.map (fun a => a.uid) = List.range m.agents.length ∧
    m.agents.length = filteredCount inp := by
  simp only [mkModel] at h
  split at h
  · exact absurd h (by simp)
  · split at h
    · exact absurd h (by simp)
    · injection h with hm
      subst hm
      refine ⟨rfl, rfl, rfl, rfl, rfl, rfl, ?_, ?_⟩
      · simp [List.map_map, Function.comp_def, filteredCount]
      · simp [filteredCount]

theorem collectedAgentRows_step_lt (m : EvacuationModel) :
    ∀ n, ∀ r ∈ collectedAgentRows m n, r.step < m.steps + n
  | 0 => by intro r hr; simp [collectedAgentRows] at hr
  | Nat.succ n => by
    intro r hr
    rw [collectedAgentRows] at hr
    rcases List.mem_append.mp hr with h1 | h2
    · exact Nat.lt_trans (collectedAgentRows_step_lt m n r h1) (Nat.lt_succ_self _)
    · rcases List.mem_map.mp h2 with ⟨a, _, rfl⟩
      simp [stepsOnly_steps]

theorem snapshot_filter_step_ne (X : EvacuationModel) (s : Nat) (h : X.steps ≠ s) :
    (snapshotRows X).filter (fun r => r.step == s) = [] := by
  refine List.filter_eq_nil_iff.mpr ?_
  intro r hr
  rcases List.mem_map.mp hr with ⟨a, _, rfl⟩
  simpa using h

theorem snapshot_filter_step_eq (X : EvacuationModel) :
    (snapshotRows X).filter (fun r => r.step == X.steps) = snapshotRows X := by
  refine List.filter_eq_self.mpr ?_
  intro r hr
  rcases List.mem_map.mp hr with ⟨a, _, rfl⟩
  simp

theorem collected_filter_step (m : EvacuationModel) :
    ∀ n s, s < n → m.steps = 0 →
      (collectedAgentRows m n).filter (fun r => r.step == s) =
        snapshotRows (stepsOnly m s)
  | 0, s, hs, _ => absurd hs (Nat.not_lt_zero s)
  | Nat.succ n, s, hs, h0 => by
    rw [collectedAgentRows, List.filter_append]
    rcases Nat.lt_or_ge s n with hlt | hge
    · rw [collected_filter_step m n s hlt h0,
        snapshot_filter_step_ne (stepsOnly m n) s
          (by rw [stepsOnly_steps, h0]; omega),
        List.append_nil]
    · have hsn : s = n := Nat.le_antisymm (Nat.lt_succ_iff.mp hs) hge
      subst hsn
      have h1 : (collectedAgentRows m s).filter (fun r => r.step == s) = [] := by
        refine List.filter_eq_nil_iff.mpr ?_
        intro r hr
        have := collectedAgentRows_step_lt m s r hr
        rw [h0] at this
        simp only [beq_iff_eq]
        omega
      have h2 : (stepsOnly m s).steps = s := by rw [stepsOnly_steps, h0, Nat.zero_add]
      rw [h1, List.nil_append]
      calc (snapshotRows (stepsOnly m s)).filter (fun r => r.step == s)
      _ = (snapshotRows (stepsOnly m s)).filter (fun r => r.step == (stepsOnly m s).steps) := by rw [h2]
      _ = snapshotRows (stepsOnly m s) := snapshot_filter_step_eq _

theorem agents_filter_uid_length (l : List Agent) (k u : Nat)
    (huid : l.map (fun a => a.uid) = List.range k) (hu : u < k) :
    (l.filter (fun a => a.uid == u)).length = 1 := by
  have h1 : (l.filter (fun a => a.uid == u)).length = l.countP (fun a => a.uid == u) :=
    (List.countP_eq_length_filter _ _).symm
  have h2 : l.countP (fun a => a.uid == u) = (l.map (fun a => a.uid)).countP (fun x => x == u) := by
    rw [List.countP_map]
    rfl
  rw [h1, h2, huid, ← List.count_eq_countP,
    List.count_eq_one_of_mem (List.nodup_range k) (List.mem_range.mpr hu)]

theorem snapshot_filter_uid_steps (X : EvacuationModel) (k u : Nat)
    (huid : X.agents.map (fun a => a.uid) = List.range k) (hu : u < k) :
    ((snapshotRows X).filter (fun r => r.agentId == u)).map (fun r => r.step) = [X.steps] := by
  rw [snapshotRows, List.filter_map]
  have hc : ((fun r : CollectedRow => r.agentId == u) ∘
      (fun a : Agent => ({ step := X.steps, agentId := a.uid, position := a.pos } : CollectedRow))) =
      (fun a : Agent => a.uid == u) := rfl
  rw [hc, List.map_map]
  have hm : ((fun r : CollectedRow => r.step) ∘
      (fun a : Agent => ({ step := X.steps, agentId := a.uid, position := a.pos } : CollectedRow))) =
      (fun _ : Agent => X.steps) := rfl
  rw [hm, List.map_const', agents_filter_uid_length _ k u huid hu]
  rfl

theorem collected_filter_uid (m : EvacuationModel) (k u : Nat)
    (huid : m.agents.map (fun a => a.uid) = List.range k) (hu : u < k) :
    ∀ n, ((collectedAgentRows m n).filter (fun r => r.agentId == u)).map (fun r => r.step) =
      (List.range n).map (fun s => m.steps + s)
  | 0 => rfl
  | Nat.succ n => by
    rw [collectedAgentRows, List.filter_append, List.map_append,
      collected_filter_uid m k u huid hu n,
      snapshot_filter_uid_steps (stepsOnly m n) k u
        (by rw [stepsOnly_map_uid]; exact huid) hu,
      stepsOnly_steps, List.range_succ, List.map_append]
    rfl

theorem runSteps_add (m : EvacuationModel) :
    ∀ (a b : Nat), runSteps m (a + b) =
      match runSteps m a with
      | .error e => .error e
      | .ok m1 => runSteps m1 b := by
  intro a
  induction a generalizing m with
  | zero => intro b; simp [runSteps, Nat.zero_add]
  | succ a ih =>
    intro b
    have hab : a + 1 + b = (a + b) + 1 := by omega
    rw [hab, runSteps, runSteps]
    cases m.step with
    | error e => rfl
    | ok m1 => exact ih m1 b

theorem sjoin_length (left : PointGDF) (right : PolyGDF) :
    (sjoin left right).length =
      (left.geoms.map (fun p => (right.geoms.filter (fun g => g.intersectsPoint p)).length)).sum := by
  rw [sjoin, List.flatMap, List.length_flatten, List.map_map]
  congr 1
  refine List.map_congr_left ?_
  intro p _
  simp

def c1cexInp : Inputs :=
  { nodes := { crs := some "EPSG:4326", ids := [1], pts := [{ x := 0, y := 0 }] },
    hazard := { crs := some "EPSG:4326",
                geoms := [{ lox := -1, hix := 1, loy := -1, hiy := 1 },
                          { lox := 0, hix := 2, loy := 0, hiy := 2 }] },
    agent_locations := { crs := some "EPSG:4326", geoms := [{ x := 0, y := 0 }] },
    target_node := some 1, seed := 0, advance := fun x => x }

/-- Claim C1, counterexample: with two overlapping hazard polygons both
containing the single candidate, construction creates two agents, while
exactly one candidate location intersects at least one hazard polygon,
so the number of agents differs from the count the claim states. -/
theorem claim_C1_counterexample :
    (mkModel c1cexInp).map (fun m => m.agents.length) = .ok 2 ∧
    candidatesInHazardCount c1cexInp = 1 ∧
    (mkModel c1cexInp).map (fun m => m.agents.length) ≠
      .ok (candidatesInHazardCount c1cexInp) := by
  refine ⟨rfl, rfl, ?_⟩
  intro h
  rw [show (mkModel c1cexInp).map (fun m => m.agents.length) = Except.ok 2 from rfl,
    show candidatesInHazardCount c1cexInp = 1 from rfl] at h
  simp at h

/-- Claim C1, amended: after construction the number of registered
agents equals the number of intersecting (candidate, hazard polygon)
pairs of the spatial join; a candidate strictly outside all hazard
polygons intersects zero polygons, so it contributes zero agents, but a
candidate intersecting several overlapping polygons contributes one
agent per intersected polygon. -/
theorem claim_C1 (inp : Inputs) (m : EvacuationModel) (h : mkModel inp = .ok m) :
    m.agents.length = intersectingPairCount inp := by
  have h8 := (mkModel_ok_inv inp m h).2.2.2.2.2.2.2
  rw [h8]
  show filteredCount inp = intersectingPairCount inp
  rw [filteredCount, sjoin_length]
  rfl

def c1wInp : Inputs :=
  { nodes := { crs := none, ids := [3, 4], pts := [{ x := 0, y := 0 }, { x := 9, y := 9 }] },
    hazard := { crs := none, geoms := [{ lox := -1, hix := 1, loy := -1, hiy := 1 }] },
    agent_locations := { crs := none, geoms := [{ x := 0, y := 0 }, { x := 7, y := 7 }] },
    target_node := some 4, seed := 0, advance := fun x => x }

theorem claim_C1_witness :
    (getOk (mkModel c1wInp) defaultModel).agents.length = intersectingPairCount c1wInp :=
  claim_C1 c1wInp (getOk (mkModel c1wInp) defaultModel) (by rfl)

def c2cexInp : Inputs :=
  { nodes := { crs := none, ids := [1], pts := [{ x := 0, y := 0 }] },
    hazard := { crs := none, geoms := [{ lox := -1, hix := 1, loy := -1, hiy := 1 }] },
    agent_locations := { crs := none, geoms := [{ x := 5, y := 5 }] },
    target_node := some 1, seed := 0, advance := fun x => x }

/-- Claim C2, counterexample: with one candidate, strictly outside the
hazard, the filtered candidate set is empty, yet construction completes
normally with a zero-agent model instead of signalling the condition. -/
theorem claim_C2_counterexample :
    candidatesInHazardCount c2cexInp = 0 ∧
    c2cexInp.agent_locations.geoms.length = 1 ∧
    isOkE (mkModel c2cexInp) = true ∧
    (mkModel c2cexInp).map (fun m => m.agents.length) = .ok 0 :=
  ⟨rfl, rfl, rfl, rfl⟩

theorem mkModel_empty_join (inp : Inputs) (t : Int) (ht : inp.target_node = some t)
    (hf : filteredCount inp = 0) :
    (mkModel inp).map (fun m => m.agents.length) = .ok 0 := by
  have hj : sjoin { inp.agent_locations with crs := inp.nodes.crs }
      { inp.hazard with crs := inp.nodes.crs } = [] := List.length_eq_zero.mp hf
  simp only [mkModel, chooseTarget, ht]
  simp [hj]
  rfl

/-- Claim C2, amended: when the candidate set after hazard filtering is
empty (and a target node is supplied), construction silently completes
with a zero-agent model; no distinct signal is raised. -/
theorem claim_C2 (inp : Inputs) (t : Int) (ht : inp.target_node = some t)
    (hf : filteredCount inp = 0) :
    (mkModel inp).map (fun m => m.agents.length) = .ok 0 :=
  mkModel_empty_join inp t ht hf

theorem claim_C2_witness :
    (mkModel c2cexInp).map (fun m => m.agents.length) = .ok 0 :=
  claim_C2 c2cexInp 1 (by rfl) (by rfl)

def c3cexInp : Inputs :=
  { nodes := { crs := none, ids := [1], pts := [{ x := 0, y := 0 }] },
    hazard := { crs := none, geoms := [{ lox := -1, hix := 1, loy := -1, hiy := 1 }] },
    agent_locations := { crs := none, geoms := [{ x := 5, y := 5 }] },
    target_node := some 99, seed := 0, advance := fun x => x }

/-- Claim C3, counterexample: the supplied target 99 is not a node of
the graph (whose only node is 1), no candidate intersects the hazard, so
no agent is created; construction completes successfully, and the
failure only surfaces at the first step(), when the data collector's
model reporter indexes the missing target node. -/
theorem claim_C3_counterexample :
    (c3cexInp.target_node = some 99 ∧ (99 : Int) ∉ c3cexInp.nodes.ids) ∧
    isOkE (mkModel c3cexInp) = true ∧
    (mkModel c3cexInp).bind EvacuationModel.step =
      .error "KeyError: target_node not in graph" :=
  ⟨⟨rfl, by decide⟩, rfl, rfl⟩

/-- Claim C3, amended: the constructor itself performs no target
validation.  With a supplied target that is not a node of the Network
Graph, construction fails only when at least one agent is created (the
first agent's initial route computation fails); when the hazard filter
leaves no candidate, construction succeeds with zero agents and the
failure is deferred to the first step(), where the data collector's
model reporter indexes the missing target node. -/
theorem claim_C3 (inp : Inputs) (t : Int) (ht : inp.target_node = some t)
    (hinv : t ∉ inp.nodes.ids) :
    (filteredCount inp ≠ 0 →
      mkModel inp = .error "NodeNotFound: target not in graph") ∧
    (filteredCount inp = 0 →
      (mkModel inp).map (fun m => m.agents.length) = .ok 0 ∧
      (mkModel inp).bind EvacuationModel.step =
        .error "KeyError: target_node not in graph") := by
  constructor
  · intro hne
    simp only [mkModel, chooseTarget, ht]
    split
    · rfl
    case isFalse hcond =>
      simp only [List.length_map] at hcond
      exact absurd ⟨hne, hinv⟩ hcond
  · intro hf
    have hj : sjoin { inp.agent_locations with crs := inp.nodes.crs }
        { inp.hazard with crs := inp.nodes.crs } = [] := List.length_eq_zero.mp hf
    refine ⟨mkModel_empty_join inp t ht hf, ?_⟩
    simp only [mkModel, chooseTarget, ht]
    simp [hj, Except.bind, EvacuationModel.step, collect, hinv]

def c3wInp : Inputs :=
  { nodes := { crs := none, ids := [7], pts := [{ x := 0, y := 0 }] },
    hazard := { crs := none, geoms := [{ lox := -1, hix := 1, loy := -1, hiy := 1 }] },
    agent_locations := { crs := none, geoms := [{ x := 3, y := 3 }] },
    target_node := some 42, seed := 0, advance := fun x => x }

theorem claim_C3_witness :
    (filteredCount c3wInp ≠ 0 →
      mkModel c3wInp = .error "NodeNotFound: target not in graph") ∧
    (filteredCount c3wInp = 0 →
      (mkModel c3wInp).map (fun m => m.agents.length) = .ok 0 ∧
      (mkModel c3wInp).bind EvacuationModel.step =
        .error "KeyError: target_node not in graph") :=
  claim_C3 c3wInp 42 (by rfl) (by decide)

def c4cexInp : Inputs :=
  { nodes := { crs := some "EPSG:4326", ids := [1], pts := [{ x := 0, y := 0 }] },
    hazard := { crs := some "EPSG:27700",
                geoms := [{ lox := -1, hix := 1, loy := -1, hiy := 1 }] },
    agent_locations := { crs := some "EPSG:27700", geoms := [{ x := 0, y := 0 }] },
    target_node := some 1, seed := 0, advance := fun x => x }

/-- Claim C4, counterexample: the hazard and candidate frames carry a
CRS different from the network nodes' CRS, yet construction does not
fail: it overwrites both CRS labels with the nodes' CRS while leaving
every geometry unchanged (relabelling, not reprojection), and the
containment join then runs, creating an agent. -/
theorem claim_C4_counterexample :
    c4cexInp.hazard.crs ≠ c4cexInp.nodes.crs ∧
    c4cexInp.agent_locations.crs ≠ c4cexInp.nodes.crs ∧
    (mkModel c4cexInp).map
        (fun m => (m.hazard.crs, m.hazard.geoms,
                   m.agent_locations.crs, m.agent_locations.geoms,
                   m.agents.length)) =
      .ok (c4cexInp.nodes.crs, c4cexInp.hazard.geoms,
           c4cexInp.nodes.crs, c4cexInp.agent_locations.geoms, 1) := by
  refine ⟨?_, ?_, rfl⟩
  · intro h
    simp [c4cexInp] at h
  · intro h
    simp [c4cexInp] at h

/-- Claim C4, amended: before the containment join the engine merely
forces the CRS labels equal: it overwrites the hazard and candidate CRS
attributes with the nodes' CRS without reprojecting any geometry, and
construction never fails on a CRS mismatch (here stated with a supplied
target that is a graph node, so no other failure intervenes); the join
therefore runs on geometries whose frames were relabelled rather than
reprojected. -/
theorem claim_C4 (inp : Inputs) (t : Int) (ht : inp.target_node = some t)
    (hv : t ∈ inp.nodes.ids) :
    (mkModel inp).map
        (fun m => (m.hazard.crs, m.hazard.geoms,
                   m.agent_locations.crs, m.agent_locations.geoms)) =
      .ok (inp.nodes.crs, inp.hazard.geoms,
           inp.nodes.crs, inp.agent_locations.geoms) := by
  simp only [mkModel, chooseTarget, ht]
  split
  case isTrue hcond => exact absurd hv hcond.2
  case isFalse hcond => rfl

def c4wInp : Inputs :=
  { nodes := { crs := some "EPSG:4326", ids := [5], pts := [{ x := 2, y := 2 }] },
    hazard := { crs := some "EPSG:3857",
                geoms := [{ lox := 0, hix := 4, loy := 0, hiy := 4 }] },
    agent_locations := { crs := none, geoms := [{ x := 2, y := 2 }] },
    target_node := some 5, seed := 0, advance := fun x => x }

theorem claim_C4_witness :
    (mkModel c4wInp).map
        (fun m => (m.hazard.crs, m.hazard.geoms,
                   m.agent_locations.crs, m.agent_locations.geoms)) =
      .ok (c4wInp.nodes.crs, c4wInp.hazard.geoms,
           c4wInp.nodes.crs, c4wInp.agent_locations.geoms) :=
  claim_C4 c4wInp 5 (by rfl) (by decide)

/-- Claim C5 (confirmed): step() records into the data collector before
activating the agents, so on a freshly constructed model the rows
recorded under step index s are exactly one row per agent giving its
position after exactly s schedule activations.  Counting the calls of
step() from 1, the record taken during the t-th call is stored under
index t - 1 and reflects the position after t - 1 movements; the record
at index 0 is the initial placement, taken before any movement. -/
theorem claim_C5 (inp : Inputs) (m0 mt : EvacuationModel) (t s : Nat)
    (h0 : mkModel inp = .ok m0) (hr : runSteps m0 t = .ok mt) (hs : s < t) :
    mt.agentLog.filter (fun r => r.step == s) =
      (stepsOnly m0 s).agents.map
        (fun a => { step := s, agentId := a.uid, position := a.pos }) := by
  obtain ⟨hsteps, hlog, -, -, -, -, -, -⟩ := mkModel_ok_inv inp m0 h0
  have hinv := runSteps_ok_inv t m0 mt hr
  rw [hinv]
  show (m0.agentLog ++ collectedAgentRows m0 t).filter (fun r => r.step == s) = _
  rw [hlog, List.nil_append, collected_filter_step m0 t s hs hsteps, snapshotRows]
  have hss : (stepsOnly m0 s).steps = s := by
    rw [stepsOnly_steps, hsteps, Nat.zero_add]
  rw [hss]

def c5wInp : Inputs :=
  { nodes := { crs := none, ids := [1, 2],
               pts := [{ x := 0, y := 0 }, { x := 10, y := 0 }] },
    hazard := { crs := none, geoms := [{ lox := -1, hix := 1, loy := -1, hiy := 1 }] },
    agent_locations := { crs := none, geoms := [{ x := 0, y := 0 }, { x := 1, y := 1 }] },
    target_node := some 2, seed := 7, advance := fun _ => 2 }

def c5wM0 : EvacuationModel := getOk (mkModel c5wInp) defaultModel

def c5wMt : EvacuationModel := getOk (runSteps c5wM0 2) defaultModel

theorem claim_C5_witness :
    c5wMt.agentLog.filter (fun r => r.step == 1) =
      (stepsOnly c5wM0 1).agents.map
        (fun a => { step := 1, agentId := a.uid, position := a.pos }) :=
  claim_C5 c5wInp c5wM0 c5wMt 2 1 (by rfl) (by rfl) (by decide)

/-- Claim C6 (confirmed): on a freshly constructed model, run(n) calls
step() n times and returns the accumulated agent series, and for every
agent id the returned series holds exactly the step indices 0 .. n-1,
one recorded position row per index. -/
theorem claim_C6 (inp : Inputs) (m0 mt : EvacuationModel) (n u : Nat)
    (h0 : mkModel inp = .ok m0) (hr : runSteps m0 n = .ok mt)
    (hu : u < m0.agents.length) :
    m0.run n = .ok (mt, mt.agentLog) ∧
    (mt.agentLog.filter (fun r => r.agentId == u)).map (fun r => r.step) =
      List.range n := by
  obtain ⟨hsteps, hlog, -, -, -, -, huid, -⟩ := mkModel_ok_inv inp m0 h0
  constructor
  · rw [EvacuationModel.run, hr]
  · have hinv := runSteps_ok_inv n m0 mt hr
    rw [hinv]
    show ((m0.agentLog ++ collectedAgentRows m0 n).filter (fun r => r.agentId == u)).map
        (fun r => r.step) = _
    rw [hlog, List.nil_append,
      collected_filter_uid m0 m0.agents.length u huid hu n, hsteps]
    simp

def c6wInp : Inputs :=
  { nodes := { crs := none, ids := [1, 2],
               pts := [{ x := 0, y := 0 }, { x := 10, y := 0 }] },
    hazard := { crs := none, geoms := [{ lox := -1, hix := 1, loy := -1, hiy := 1 }] },
    agent_locations := { crs := none, geoms := [{ x := 0, y := 0 }, { x := 1, y := 0 }] },
    target_node := some 2, seed := 3, advance := fun _ => 2 }

def c6wM0 : EvacuationModel := getOk (mkModel c6wInp) defaultModel

def c6wMt : EvacuationModel := getOk (runSteps c6wM0 3) defaultModel

theorem claim_C6_witness :
    c6wM0.run 3 = .ok (c6wMt, c6wMt.agentLog) ∧
    (c6wMt.agentLog.filter (fun r => r.agentId == 0)).map (fun r => r.step) =
      List.range 3 :=
  claim_C6 c6wInp c6wM0 c6wMt 3 0 (by rfl) (by rfl) (by decide)

/-- Claim C7 (confirmed): every source of randomness in the model (the
target choice when none is supplied, and the per-step shuffling of the
activation order) is drawn from the single generator seeded by the
model seed, so two models constructed from identical inputs and the
same seed select the same target node and produce identical agent-level
time series over any number of steps. -/
theorem claim_C7 (i1 i2 : Inputs) (n : Nat)
    (hn : i1.nodes = i2.nodes) (hh : i1.hazard = i2.hazard)
    (hl : i1.agent_locations = i2.agent_locations)
    (ht : i1.target_node = i2.target_node) (hs : i1.seed = i2.seed)
    (ha : i1.advance = i2.advance) :
    (mkModel i1).map (fun m => m.target_node) =
      (mkModel i2).map (fun m => m.target_node) ∧
    ((mkModel i1).bind (fun m => runSteps m n)).map (fun m => m.agentLog) =
      ((mkModel i2).bind (fun m => runSteps m n)).map (fun m => m.agentLog) := by
  obtain ⟨n1, h1, l1, t1, s1, a1⟩ := i1
  obtain ⟨n2, h2, l2, t2, s2, a2⟩ := i2
  cases hn
  cases hh
  cases hl
  cases ht
  cases hs
  cases ha
  exact ⟨rfl, rfl⟩

def c7wInp1 : Inputs :=
  { nodes := { crs := none, ids := [1, 2, 3],
               pts := [{ x := 0, y := 0 }, { x := 5, y := 0 }, { x := 0, y := 5 }] },
    hazard := { crs := none, geoms := [{ lox := -1, hix := 1, loy := -1, hiy := 1 }] },
    agent_locations := { crs := none, geoms := [{ x := 0, y := 0 }, { x := 1, y := 0 }] },
    target_node := none, seed := 11, advance := fun x => x + 1 }

def c7wInp2 : Inputs :=
  { nodes := { crs := none, ids := [1, 2, 3],
               pts := [{ x := 0, y := 0 }, { x := 5, y := 0 }, { x := 0, y := 5 }] },
    hazard := { crs := none, geoms := [{ lox := -1, hix := 1, loy := -1, hiy := 1 }] },
    agent_locations := { crs := none, geoms := [{ x := 0, y := 0 }, { x := 1, y := 0 }] },
    target_node := none, seed := 11, advance := fun x => x + 1 }

theorem claim_C7_witness :
    (mkModel c7wInp1).map (fun m => m.target_node) =
      (mkModel c7wInp2).map (fun m => m.target_node) ∧
    ((mkModel c7wInp1).bind (fun m => runSteps m 4)).map (fun m => m.agentLog) =
      ((mkModel c7wInp2).bind (fun m => runSteps m 4)).map (fun m => m.agentLog) :=
  claim_C7 c7wInp1 c7wInp2 4 (by rfl) (by rfl) (by rfl) (by rfl) (by rfl) (by rfl)

/-- Claim C8 (confirmed): on a freshly constructed model run(0) performs
no step, returns the empty time series, and the model handed back is the
constructed model itself, unchanged in every component (agent positions,
node occupancy, step counter, collected logs). -/
theorem claim_C8 (inp : Inputs) (m : EvacuationModel) (h : mkModel inp = .ok m) :
    m.run 0 = .ok (m, []) := by
  obtain ⟨-, hlog, -, -, -, -, -, -⟩ := mkModel_ok_inv inp m h
  rw [EvacuationModel.run]
  show Except.ok (m, m.agentLog) = Except.ok (m, [])
  rw [hlog]

def c8wInp : Inputs :=
  { nodes := { crs := none, ids := [1, 2],
               pts := [{ x := 0, y := 0 }, { x := 8, y := 0 }] },
    hazard := { crs := none, geoms := [{ lox := -1, hix := 1, loy := -1, hiy := 1 }] },
    agent_locations := { crs := none, geoms := [{ x := 1, y := 0 }] },
    target_node := some 2, seed := 5, advance := fun _ => 2 }

def c8wM : EvacuationModel := getOk (mkModel c8wInp) defaultModel

theorem claim_C8_witness : c8wM.run 0 = .ok (c8wM, []) :=
  claim_C8 c8wInp c8wM (by rfl)

/-- Claim C9 (confirmed): the constructor stores the caller's hazard and
agent_locations objects themselves and overwrites the CRS attribute of
both with the network nodes' CRS, whatever CRS the inputs carried, while
the geometries are left untouched; through Python aliasing this mutates
the caller-supplied dataframes in place. -/
theorem claim_C9 (inp : Inputs) (m : EvacuationModel) (h : mkModel inp = .ok m) :
    m.hazard.crs = inp.nodes.crs ∧ m.agent_locations.crs = inp.nodes.crs ∧
    m.hazard.geoms = inp.hazard.geoms ∧
    m.agent_locations.geoms = inp.agent_locations.geoms := by
  obtain ⟨-, -, -, -, hh, hl, -, -⟩ := mkModel_ok_inv inp m h
  rw [hh, hl]
  exact ⟨rfl, rfl, rfl, rfl⟩

def c9wInp : Inputs :=
  { nodes := { crs := some "EPSG:4326", ids := [1], pts := [{ x := 0, y := 0 }] },
    hazard := { crs := some "EPSG:27700",
                geoms := [{ lox := -2, hix := 2, loy := -2, hiy := 2 }] },
    agent_locations := { crs := none, geoms := [{ x := 0, y := 0 }] },
    target_node := some 1, seed := 0, advance := fun x => x }

def c9wM : EvacuationModel := getOk (mkModel c9wInp) defaultModel

theorem claim_C9_witness :
    c9wM.hazard.crs = c9wInp.nodes.crs ∧
    c9wM.agent_locations.crs = c9wInp.nodes.crs ∧
    c9wM.hazard.geoms = c9wInp.hazard.geoms ∧
    c9wM.agent_locations.geoms = c9wInp.agent_locations.geoms :=
  claim_C9 c9wInp c9wM (by rfl)

/-- Claim C10 (confirmed): run is additive across calls: running a steps
and then b steps on the resulting model gives, from the second call,
exactly the model and accumulated agent series of a single run of a + b
steps; the step counter and the collected log persist across the calls
instead of resetting. -/
theorem claim_C10 (m : EvacuationModel) (a b : Nat) :
    (m.run a).bind (fun p => p.1.run b) = m.run (a + b) := by
  have hadd := runSteps_add m a b
  cases hra : runSteps m a with
  | error e =>
    rw [hra] at hadd
    simp [EvacuationModel.run, hra, hadd, Except.bind]
  | ok m1 =>
    rw [hra] at hadd
    simp only [EvacuationModel.run, hra, hadd, Except.bind]
